import Mathlib

/-!
Verification development for the incident-reporting core: a shallow
embedding of the shared validation engine (`shared/src/validation/index.ts`),
the PDF document-model mapper and the page-flow layout logic of the PDF
builder, together with theorems settling the specified properties.

Modelling conventions (JavaScript semantics made explicit):
- TypeScript-optional fields (`x?: T`) become `Option T`.
- Required string fields stay `String`; the runtime-absent case the
  validator guards against (`!x`) is modelled by the empty string, which is
  exactly the other falsy string value.
- Boolean fields that the validator tests with `=== undefined` become
  `Option Bool`.
- `x || d`, `!x || x.trim() === ''` and optional chaining `a?.b` are
  modelled by the helpers `jsOr`, `blankStr`/`blankOpt` and
  `chainStr`/`Option.bind` below.
- `Date` parsing and calendar decomposition are ambient-environment
  behaviour and are abstracted into an explicit `Env` record; all other
  logic is embedded directly.
-/

namespace IncidentApp

/-- JS truthiness of an optional string: `undefined` and `''` are falsy. -/
def strTruthy : Option String → Bool
  | none => false
  | some s => s != ""

/-- JS `s || d` for a plain string (empty string falls through to `d`). -/
def strOr (s d : String) : String :=
  if s != "" then s else d

/-- JS `o || d` for an optional string (`undefined` and `''` fall through). -/
def jsOr (o : Option String) (d : String) : String :=
  match o with
  | some s => strOr s d
  | none => d

/-- JS `s.trim()`: strip leading and trailing whitespace (structurally
recursive model of `String.prototype.trim`). -/
def jsTrim (s : String) : String :=
  String.mk (((s.data.dropWhile Char.isWhitespace).reverse.dropWhile
    Char.isWhitespace).reverse)

/-- JS `!s || s.trim() === ''` for a plain string field. -/
def blankStr (s : String) : Bool :=
  s == "" || jsTrim s == ""

/-- JS `!o || o.trim() === ''` for an optional string field. -/
def blankOpt : Option String → Bool
  | none => true
  | some s => s == "" || jsTrim s == ""

/-- Optional chaining `o?.f` for a string-valued field, collapsed to `""`
(the other falsy string) for the validator's truthiness checks. -/
def chainStr {α : Type} (o : Option α) (f : α → String) : String :=
  match o with
  | some a => f a
  | none => ""

/-- JS `o?.f ? 'Yes' : 'No'`-style truthiness of a chained boolean. -/
def chainBool {α : Type} (o : Option α) (f : α → Bool) : Bool :=
  match o with
  | some a => f a
  | none => false

/-- JS `o?.toString() || d` for an optional number (`toString` of a number
is never the empty string, so a present number always wins). -/
def natStrOr (o : Option Nat) (d : String) : String :=
  match o with
  | some n => toString n
  | none => d

/-- `s.replace(/\s/g, '')`. -/
def despace (s : String) : String :=
  String.mk (s.data.filter (fun c => !c.isWhitespace))

/-- The 24-hour time regex `^([01]?[0-9]|2[0-3]):[0-5][0-9]$` from
`validateBasicInfo`, expanded over the character list. -/
def isValidTime (s : String) : Bool :=
  match s.data with
  | [h, c, m1, m2] =>
      c == ':' && h.isDigit &&
      (decide ('0' ≤ m1) && decide (m1 ≤ '5')) && m2.isDigit
  | [h1, h2, c, m1, m2] =>
      c == ':' &&
      (((h1 == '0' || h1 == '1') && h2.isDigit) ||
        (h1 == '2' && (decide ('0' ≤ h2) && decide (h2 ≤ '3')))) &&
      (decide ('0' ≤ m1) && decide (m1 ≤ '5')) && m2.isDigit
  | _ => false

/-- The UK registration regex
`^[A-Z]{2}[0-9]{2}\s?[A-Z]{3}$|^[A-Z][0-9]{1,3}\s?[A-Z]{3}$` (flag `i`),
expanded over the already-despaced character list: `\s?` can only match the
empty string there, leaving the four lengths below. -/
def isUkRegChars : List Char → Bool
  | [a, b, c, d, e, f, g] =>
      (a.isAlpha && b.isAlpha && c.isDigit && d.isDigit &&
        e.isAlpha && f.isAlpha && g.isAlpha) ||
      (a.isAlpha && b.isDigit && c.isDigit && d.isDigit &&
        e.isAlpha && f.isAlpha && g.isAlpha)
  | [a, b, c, d, e, f] =>
      a.isAlpha && b.isDigit && c.isDigit && d.isAlpha && e.isAlpha && f.isAlpha
  | [a, b, c, d, e] =>
      a.isAlpha && b.isDigit && c.isAlpha && d.isAlpha && e.isAlpha
  | _ => false

/-- `ukRegRegex.test(registration.replace(/\s/g, ''))` from
`validateVehicleIncident`. -/
def isUkReg (s : String) : Bool :=
  isUkRegChars (despace s).data

/-- Split a character list at every occurrence of a separator character
(structurally recursive model of `split`). -/
def splitOnChar (sep : Char) : List Char → List (List Char)
  | [] => [[]]
  | c :: rest =>
      if c == sep then [] :: splitOnChar sep rest
      else
        match splitOnChar sep rest with
        | h :: t => (c :: h) :: t
        | [] => [[c]]

/-- The email regex `^[^\s@]+@[^\s@]+\.[^\s@]+$` from `isValidEmail`:
exactly one `@`, no whitespace, a non-empty local part, and a dot strictly
inside the domain part. -/
def isValidEmail (s : String) : Bool :=
  match splitOnChar '@' s.data with
  | [lp, dom] =>
      !lp.isEmpty &&
      lp.all (fun c => !c.isWhitespace) &&
      dom.all (fun c => !c.isWhitespace) &&
      ((dom.drop 1).dropLast.contains '.')
  | _ => false

/-- The phone regex `^(\+44|0)[0-9\s]{10,13}$` from `isValidUKPhone`,
applied after `phone.replace(/\s/g, '')` (so the `\s` in the class is
vacuous). -/
def isValidUKPhone (phone : String) : Bool :=
  match (despace phone).data with
  | '+' :: '4' :: '4' :: rest =>
      rest.all Char.isDigit && decide (10 ≤ rest.length) && decide (rest.length ≤ 13)
  | '0' :: rest =>
      rest.all Char.isDigit && decide (10 ≤ rest.length) && decide (rest.length ≤ 13)
  | _ => false

/-- Calendar decomposition of a JS `Date` (day / month-from-one / year), as
produced by `getDate()`, `getMonth() + 1` and `getFullYear()`. -/
structure DateParts where
  day : Nat
  month : Nat
  year : Nat
  deriving DecidableEq

/-- The ambient JavaScript environment the embedded code reads through
`new Date(...)`: date-string parsing to epoch milliseconds, the end of the
current day (from `today.setHours(23, 59, 59, 999)`), and calendar
decomposition for display formatting. -/
structure Env where
  parseMillis : String → Int
  endOfTodayMillis : Int
  dateParts : String → DateParts
  nowParts : DateParts

/-- `String(n).padStart(2, '0')`. -/
def pad2 (n : Nat) : String :=
  if n < 10 then "0" ++ toString n else toString n

/-- Rendering of `DD/MM/YYYY` from calendar parts (body of `formatDateUK`). -/
def formatDatePartsUK (p : DateParts) : String :=
  pad2 p.day ++ "/" ++ pad2 p.month ++ "/" ++ toString p.year

/-- `formatDateUK` from `shared/src/utils`: parse, then `DD/MM/YYYY`. -/
def formatDateUK (env : Env) (s : String) : String :=
  formatDatePartsUK (env.dateParts s)

/-- `formatTimeUK` from `shared/src/utils` (both branches return the input
unchanged). -/
def formatTimeUK (t : String) : String :=
  if t.contains ':' then t else t

/-- `getCategoryLabel` from `shared/src/utils`: label lookup with
`labels[category] || category` fallback. -/
def getCategoryLabel (c : String) : String :=
  if c == "personal_injury" then "Personal Injury"
  else if c == "property_damage" then "Property Damage"
  else if c == "vehicle_incident" then "Vehicle Incident"
  else if c == "public_liability" then "Public Liability"
  else c

/-! Data model (`shared/src/types/incident.ts`), restricted to the fields the
embedded validation and mapping code reads. `section` is a Lean keyword, so
the `ValidationError.section` field is named `sectionName`; likewise
`Attachment.type` is named `typeTag`. -/

/-- GPS point of `IncidentLocation.gpsCoordinates`. -/
structure GpsCoordinates where
  latitude : ℚ
  longitude : ℚ
  deriving DecidableEq

structure IncidentLocation where
  gpsCoordinates : Option GpsCoordinates
  manualAddress : Option String
  siteName : Option String
  department : Option String
  area : Option String
  deriving DecidableEq

structure ReportingPerson where
  name : String
  jobTitle : Option String
  contactNumber : Option String
  email : Option String
  employer : Option String
  deriving DecidableEq

structure Witness where
  name : String
  contactDetails : Option String
  statement : Option String
  deriving DecidableEq

structure TrainingDetails where
  hasTraining : Bool
  deriving DecidableEq

structure PersonInvolved where
  fullName : String
  age : Option Nat
  roleOrRelationship : String
  employer : Option String
  contactDetails : Option String
  relevantTraining : Option TrainingDetails
  deriving DecidableEq

structure PPEUsage where
  used : Bool
  types : Option (List String)
  functioningProperly : Option Bool
  deriving DecidableEq

structure FirstAidDetails where
  given : Bool
  treatment : Option String
  deriving DecidableEq

structure HospitalVisit where
  wentToHospital : Bool
  hospitalName : Option String
  deriving DecidableEq

structure InjuryDetails where
  natureOfInjury : String
  bodyPartsAffected : List String
  severity : String
  firstAidGiven : Option FirstAidDetails
  hospitalVisit : Option HospitalVisit
  expectedLostTimeDays : Option Nat
  ppeUsed : Option PPEUsage
  deriving DecidableEq

structure PropertyDamageDetails where
  assetType : String
  assetDescription : String
  assetIdOrSerial : Option String
  extentOfDamage : String
  estimatedCost : Option ℚ
  urgentRepairRequired : Option Bool
  conditionBeforeIncident : String
  deriving DecidableEq

structure VehicleDetails where
  companyVehicle : Option Bool
  registration : String
  makeModel : Option String
  driverName : String
  driverLicenceNumber : Option String
  policeNotified : Option Bool
  policeReferenceNumber : Option String
  roadConditions : Option String
  weatherConditions : Option String
  approximateSpeedKmh : Option Nat
  deriving DecidableEq

structure PublicLiabilityDetails where
  reasonForBeingOnSite : String
  authorizedVisitor : Bool
  signedIn : Bool
  preExistingConditions : Option String
  refusedTreatment : Bool
  deriving DecidableEq

structure IncidentDescription where
  whatHappened : String
  sequenceOfEvents : Option String
  activityAtTime : Option String
  immediateCause : Option String
  unsafeConditions : Option String
  unsafeActs : Option String
  environmentalFactors : Option String
  equipmentFactors : Option String
  supervisionPresent : String
  areaPreviouslyInspected : String
  deriving DecidableEq

structure RootCauseAnalysis where
  directCause : Option String
  indirectCause : Option String
  underlyingRootCause : Option String
  contributingFactors : Option (List String)
  preventativeMeasures : Option String
  wereControlsAdequate : String
  controlsExplanation : Option String
  deriving DecidableEq

structure CorrectiveAction where
  description : String
  responsiblePerson : Option String
  dueDate : Option String
  status : String
  deriving DecidableEq

structure Attachment where
  uri : String
  typeTag : String
  caption : Option String
  deriving DecidableEq

structure Signature where
  name : String
  role : Option String
  signedAt : String
  signatureImageUri : Option String
  deriving DecidableEq

structure Signatures where
  reporter : Option Signature
  investigator : Option Signature
  witness : Option Signature
  deriving DecidableEq

structure RIDDORAssessment where
  isReportable : Bool
  deriving DecidableEq

/-- The incident record. The `category` tag is kept as the raw string the
code switches on; values outside the closed set fall through every branch. -/
structure IncidentReport where
  referenceCode : String
  category : String
  dateOfIncident : String
  timeOfIncident : String
  location : IncidentLocation
  reportedBy : ReportingPerson
  witnesses : Option (List Witness)
  personInvolved : Option PersonInvolved
  injuryDetails : Option InjuryDetails
  propertyDamageDetails : Option PropertyDamageDetails
  vehicleDetails : Option VehicleDetails
  publicLiabilityDetails : Option PublicLiabilityDetails
  incidentDescription : IncidentDescription
  rootCauseAnalysis : Option RootCauseAnalysis
  correctiveActions : Option (List CorrectiveAction)
  attachments : Option (List Attachment)
  signatures : Option Signatures
  riddorAssessment : Option RIDDORAssessment
  deriving DecidableEq

structure ValidationError where
  field : String
  message : String
  sectionName : String
  deriving DecidableEq

structure ValidationResult where
  valid : Bool
  errors : List ValidationError
  warnings : List ValidationError
  deriving DecidableEq

structure PdfExportOptions where
  summaryOnly : Bool
  includePhotos : Bool
  includeSignatures : Bool
  includeRootCause : Bool
  includeCorrectiveActions : Bool
  includeWitnessStatements : Bool
  includeAttachments : Bool
  deriving DecidableEq

/-! The validation engine (`shared/src/validation/index.ts`). Each `push`
of the source becomes a singleton list appended in source order. -/

/-- `validateBasicInfo`: the rules applied to every category. -/
def validateBasicInfo (env : Env) (incident : IncidentReport) : List ValidationError :=
  (if incident.category == "" then
    [⟨"category", "Incident category is required", "Basic Information"⟩]
  else []) ++
  (if incident.dateOfIncident == "" then
    [⟨"dateOfIncident", "Date of incident is required", "Basic Information"⟩]
  else if env.parseMillis incident.dateOfIncident > env.endOfTodayMillis then
    [⟨"dateOfIncident", "Incident date cannot be in the future", "Basic Information"⟩]
  else []) ++
  (if incident.timeOfIncident == "" then
    [⟨"timeOfIncident", "Time of incident is required", "Basic Information"⟩]
  else if !isValidTime incident.timeOfIncident then
    [⟨"timeOfIncident", "Time must be in HH:mm format (24-hour)", "Basic Information"⟩]
  else []) ++
  (if incident.location.gpsCoordinates.isNone && !strTruthy incident.location.manualAddress then
    [⟨"location", "Location is required (GPS or manual address)", "Basic Information"⟩]
  else []) ++
  (if blankStr incident.incidentDescription.whatHappened then
    [⟨"incidentDescription.whatHappened", "Incident description is required",
      "Incident Description"⟩]
  else if incident.incidentDescription.whatHappened.length < 20 then
    [⟨"incidentDescription.whatHappened",
      "Incident description must be at least 20 characters", "Incident Description"⟩]
  else []) ++
  (if blankStr incident.reportedBy.name then
    [⟨"reportedBy.name", "Reporter name is required", "Basic Information"⟩]
  else [])

/-- `validatePersonalInjury`. -/
def validatePersonalInjury (incident : IncidentReport) : List ValidationError :=
  (if blankStr (chainStr incident.personInvolved PersonInvolved.fullName) then
    [⟨"personInvolved.fullName", "Injured person\x27s name is required", "Person Involved"⟩]
  else []) ++
  (if blankStr (chainStr incident.injuryDetails InjuryDetails.natureOfInjury) then
    [⟨"injuryDetails.natureOfInjury", "Nature of injury is required", "Injury Details"⟩]
  else []) ++
  (if chainStr incident.injuryDetails InjuryDetails.severity == "" then
    [⟨"injuryDetails.severity", "Injury severity is required", "Injury Details"⟩]
  else []) ++
  (if (match incident.injuryDetails with
       | some d => d.bodyPartsAffected.isEmpty
       | none => true) then
    [⟨"injuryDetails.bodyPartsAffected",
      "At least one affected body part must be selected", "Injury Details"⟩]
  else []) ++
  (if (incident.injuryDetails.bind InjuryDetails.ppeUsed).isNone then
    [⟨"injuryDetails.ppeUsed", "PPE usage information is required", "Injury Details"⟩]
  else [])

/-- `validatePublicLiability`. -/
def validatePublicLiability (incident : IncidentReport) : List ValidationError :=
  (if blankStr (chainStr incident.personInvolved PersonInvolved.fullName) then
    [⟨"personInvolved.fullName", "Name of public member is required", "Person Involved"⟩]
  else []) ++
  (if blankStr (chainStr incident.publicLiabilityDetails
      PublicLiabilityDetails.reasonForBeingOnSite) then
    [⟨"publicLiabilityDetails.reasonForBeingOnSite",
      "Reason for being on site is required", "Public Liability Details"⟩]
  else []) ++
  (match incident.injuryDetails with
   | some d =>
      if d.natureOfInjury != "" && d.severity == "" then
        [⟨"injuryDetails.severity", "Injury severity is required when injury is reported",
          "Injury Details"⟩]
      else []
   | none => [])

/-- `validatePropertyDamage`. -/
def validatePropertyDamage (incident : IncidentReport) : List ValidationError :=
  (if blankStr (chainStr incident.propertyDamageDetails
      PropertyDamageDetails.assetDescription) then
    [⟨"propertyDamageDetails.assetDescription",
      "Description of damaged property is required", "Property Damage Details"⟩]
  else []) ++
  (if blankStr (chainStr incident.propertyDamageDetails
      PropertyDamageDetails.extentOfDamage) then
    [⟨"propertyDamageDetails.extentOfDamage", "Extent of damage is required",
      "Property Damage Details"⟩]
  else []) ++
  (if blankStr (chainStr incident.propertyDamageDetails
      PropertyDamageDetails.assetType) then
    [⟨"propertyDamageDetails.assetType", "Asset type is required",
      "Property Damage Details"⟩]
  else []) ++
  (if (incident.propertyDamageDetails.bind
      PropertyDamageDetails.urgentRepairRequired).isNone then
    [⟨"propertyDamageDetails.urgentRepairRequired",
      "Please indicate if urgent repair is required", "Property Damage Details"⟩]
  else [])

/-- `validateVehicleIncident`. Note that the final police-reference finding
is pushed into the same `errors` list as the rest, despite its advisory
wording. -/
def validateVehicleIncident (incident : IncidentReport) : List ValidationError :=
  (if blankStr (chainStr incident.vehicleDetails VehicleDetails.registration) then
    [⟨"vehicleDetails.registration", "Vehicle registration is required", "Vehicle Details"⟩]
  else if !isUkReg (chainStr incident.vehicleDetails VehicleDetails.registration) then
    [⟨"vehicleDetails.registration", "Please enter a valid UK vehicle registration",
      "Vehicle Details"⟩]
  else []) ++
  (if blankStr (chainStr incident.vehicleDetails VehicleDetails.driverName) then
    [⟨"vehicleDetails.driverName", "Driver name is required", "Vehicle Details"⟩]
  else []) ++
  (if (incident.vehicleDetails.bind VehicleDetails.companyVehicle).isNone then
    [⟨"vehicleDetails.companyVehicle", "Please indicate if this is a company vehicle",
      "Vehicle Details"⟩]
  else []) ++
  (if (incident.vehicleDetails.bind VehicleDetails.policeNotified).isNone then
    [⟨"vehicleDetails.policeNotified", "Please indicate if police were notified",
      "Vehicle Details"⟩]
  else []) ++
  (if (incident.vehicleDetails.bind VehicleDetails.policeNotified) == some true &&
      blankOpt (incident.vehicleDetails.bind VehicleDetails.policeReferenceNumber) then
    [⟨"vehicleDetails.policeReferenceNumber",
      "Police reference number is strongly recommended when police are notified",
      "Vehicle Details"⟩]
  else [])

/-- Per-entry errors of the `correctiveActions.forEach` loop in
`validateInvestigationFields`. -/
def correctiveActionErrors (i : Nat) (action : CorrectiveAction) : List ValidationError :=
  (if blankStr action.description then
    [⟨"correctiveActions[" ++ toString i ++ "].description",
      "Corrective action " ++ toString (i + 1) ++ ": Description is required",
      "Corrective Actions"⟩]
  else []) ++
  (if blankOpt action.responsiblePerson then
    [⟨"correctiveActions[" ++ toString i ++ "].responsiblePerson",
      "Corrective action " ++ toString (i + 1) ++ ": Responsible person is required",
      "Corrective Actions"⟩]
  else [])

/-- `validateInvestigationFields`: extra rules of the full investigation PDF. -/
def validateInvestigationFields (incident : IncidentReport) : List ValidationError :=
  (if blankOpt (incident.rootCauseAnalysis.bind RootCauseAnalysis.directCause) then
    [⟨"rootCauseAnalysis.directCause", "Direct cause is required for investigation report",
      "Root Cause Analysis"⟩]
  else []) ++
  (if blankOpt (incident.rootCauseAnalysis.bind RootCauseAnalysis.underlyingRootCause) then
    [⟨"rootCauseAnalysis.underlyingRootCause",
      "Underlying root cause is required for investigation report", "Root Cause Analysis"⟩]
  else []) ++
  (if chainStr incident.rootCauseAnalysis RootCauseAnalysis.wereControlsAdequate == "" then
    [⟨"rootCauseAnalysis.wereControlsAdequate",
      "Assessment of existing controls is required", "Root Cause Analysis"⟩]
  else []) ++
  (match incident.correctiveActions with
   | none =>
      [⟨"correctiveActions",
        "At least one corrective action is required for investigation report",
        "Corrective Actions"⟩]
   | some actions =>
      if actions.isEmpty then
        [⟨"correctiveActions",
          "At least one corrective action is required for investigation report",
          "Corrective Actions"⟩]
      else (actions.enum.map (fun p => correctiveActionErrors p.1 p.2)).flatten)

/-- Chained severity read `incident.injuryDetails?.severity` (absence
collapses to the falsy string). -/
def injSeverity (incident : IncidentReport) : String :=
  chainStr incident.injuryDetails InjuryDetails.severity

/-- First block of `generateWarnings`: email shape check (advisory). -/
def emailWarningPart (incident : IncidentReport) : List ValidationError :=
  match incident.reportedBy.email with
  | some e =>
      if e != "" && !isValidEmail e then
        [⟨"reportedBy.email", "Email format appears invalid", "Basic Information"⟩]
      else []
  | none => []

/-- Second block of `generateWarnings`: phone shape check (advisory). -/
def phoneWarningPart (incident : IncidentReport) : List ValidationError :=
  match incident.reportedBy.contactNumber with
  | some p =>
      if p != "" && !isValidUKPhone p then
        [⟨"reportedBy.contactNumber", "Phone number format appears invalid",
          "Basic Information"⟩]
      else []
  | none => []

/-- Third block of `generateWarnings`: one warning per witness with a
missing statement. -/
def witnessWarningPart (incident : IncidentReport) : List ValidationError :=
  match incident.witnesses with
  | some ws =>
      if decide (0 < ws.length) then
        (ws.enum.map (fun p =>
          if blankOpt p.2.statement then
            [⟨"witnesses[" ++ toString p.1 ++ "].statement",
              "Witness " ++ toString (p.1 + 1) ++ ": Statement is recommended",
              "Witnesses"⟩]
          else [])).flatten
      else []
  | none => []

/-- Fourth block of `generateWarnings`: no attachments at all (advisory). -/
def attachmentsWarningPart (incident : IncidentReport) : List ValidationError :=
  if (match incident.attachments with
      | some l => l.isEmpty
      | none => true) then
    [⟨"attachments", "Consider adding photos or other evidence", "Attachments"⟩]
  else []

/-- The warning literal pushed by the RIDDOR block of `generateWarnings`. -/
def riddorWarning : ValidationError :=
  ⟨"riddorAssessment",
   "Serious injury may be RIDDOR reportable - ensure HSE notification is considered",
   "Legal Compliance"⟩

/-- Fifth block of `generateWarnings`: the RIDDOR compliance reminder. The
condition keeps the source's operator precedence,
`(category === 'personal_injury' && severity === 'severe') || severity === 'fatal'`. -/
def riddorWarningPart (incident : IncidentReport) : List ValidationError :=
  if (incident.category == "personal_injury" && injSeverity incident == "severe") ||
      injSeverity incident == "fatal" then
    (if incident.riddorAssessment.isNone then [riddorWarning] else [])
  else []

/-- `generateWarnings`: the advisory findings, in source push order. -/
def generateWarnings (incident : IncidentReport) : List ValidationError :=
  emailWarningPart incident ++ phoneWarningPart incident ++
  witnessWarningPart incident ++ attachmentsWarningPart incident ++
  riddorWarningPart incident

/-- `validateIncident`: base rules, category dispatch, warnings. -/
def validateIncident (env : Env) (incident : IncidentReport) : ValidationResult :=
  let errors :=
    validateBasicInfo env incident ++
    (if incident.category == "personal_injury" then validatePersonalInjury incident
     else if incident.category == "public_liability" then validatePublicLiability incident
     else if incident.category == "property_damage" then validatePropertyDamage incident
     else if incident.category == "vehicle_incident" then validateVehicleIncident incident
     else [])
  { valid := errors.length == 0
    errors := errors
    warnings := generateWarnings incident }

/-- `validateIncidentForPDF`: base validation plus export-profile rules. -/
def validateIncidentForPDF (env : Env) (incident : IncidentReport)
    (options : PdfExportOptions) : ValidationResult :=
  let basicValidation := validateIncident env incident
  let errors :=
    basicValidation.errors ++
    (if !options.summaryOnly then validateInvestigationFields incident else []) ++
    (if options.includeSignatures then
      (if (incident.signatures.bind Signatures.reporter).isNone then
        [⟨"signatures.reporter", "Reporter signature is required for PDF export",
          "Signatures"⟩]
      else []) ++
      (if !options.summaryOnly && (incident.signatures.bind Signatures.investigator).isNone then
        [⟨"signatures.investigator",
          "Investigator signature is required for full investigation PDF", "Signatures"⟩]
      else [])
    else []) ++
    (if options.includePhotos &&
        (match incident.attachments with
         | some l => (l.filter (fun a => a.typeTag == "photo")).length == 0
         | none => true) then
      [⟨"attachments", "No photos available to include in PDF", "Attachments"⟩]
    else [])
  { valid := errors.length == 0
    errors := errors
    warnings := basicValidation.warnings }

/-! The document-model mapper (`pdf-builder`, `mapIncidentToPdfModel`).
Each guarded block of the source becomes a named piece; the assertion
`incident.x!` inside the builders is modelled by `derefE` in the
`Except`-instrumented variants, so that totality of the mapper is a theorem
about the guards rather than a byproduct of the embedding. -/

structure PdfRow where
  label : String
  value : String
  deriving DecidableEq

structure PdfSection where
  title : String
  rows : List PdfRow
  deriving DecidableEq

structure PdfTableSection where
  title : String
  headers : List String
  rows : List (List String)
  deriving DecidableEq

structure PdfAttachmentRef where
  uri : String
  caption : Option String
  deriving DecidableEq

structure PdfAttachmentSection where
  title : String
  attachments : List PdfAttachmentRef
  deriving DecidableEq

structure PdfSignatureEntry where
  name : String
  role : Option String
  signedAt : String
  imageUri : Option String
  deriving DecidableEq

structure PdfSignatureSection where
  title : String
  signatures : List PdfSignatureEntry
  deriving DecidableEq

structure PdfIncidentModel where
  title : String
  referenceCode : String
  categoryLabel : String
  exportDate : String
  headerFields : List (String × String)
  sections : List PdfSection
  rootCauseSection : Option PdfSection
  correctiveActionsSection : Option PdfTableSection
  attachmentsSection : Option PdfAttachmentSection
  signaturesSection : Option PdfSignatureSection
  deriving DecidableEq

/-- A non-null assertion `o!` / an unchecked member access on a possibly
absent sub-object: absence aborts with a `TypeError`, presence yields the
value. -/
def derefE {α : Type} (what : String) (o : Option α) : Except String α :=
  match o with
  | some a => Except.ok a
  | none => Except.error ("TypeError: cannot read properties of undefined (" ++ what ++ ")")

/-- Decimal rendering with `dp` fraction digits (JS `Number.toFixed`). -/
def formatFixed (dp : Nat) (q : ℚ) : String :=
  let n : Int := round (q * ((10 : ℚ) ^ dp))
  let sign := if n < 0 then "-" else ""
  let m := n.natAbs
  let base := 10 ^ dp
  if dp == 0 then sign ++ toString m
  else
    let frac := toString (m % base)
    sign ++ toString (m / base) ++ "." ++
      String.mk (List.replicate (dp - frac.length) '0') ++ frac

/-- The GPS fallback of `formatLocation`. -/
def gpsOrNotSpecified (o : Option GpsCoordinates) : String :=
  match o with
  | some g => "GPS: " ++ formatFixed 6 g.latitude ++ ", " ++ formatFixed 6 g.longitude
  | none => "Not specified"

/-- `formatLocation`: manual address if truthy, else GPS, else a fixed
placeholder. -/
def formatLocation (incident : IncidentReport) : String :=
  match incident.location.manualAddress with
  | some s => if s == "" then gpsOrNotSpecified incident.location.gpsCoordinates else s
  | none => gpsOrNotSpecified incident.location.gpsCoordinates

/-- The "Incident Information" section pushed first by the mapper. -/
def incidentInfoSection (env : Env) (incident : IncidentReport) : PdfSection :=
  { title := "Incident Information"
    rows :=
      [⟨"Incident Reference", incident.referenceCode⟩,
       ⟨"Category", getCategoryLabel incident.category⟩,
       ⟨"Date of Incident", formatDateUK env incident.dateOfIncident⟩,
       ⟨"Time of Incident", formatTimeUK incident.timeOfIncident⟩,
       ⟨"Location", formatLocation incident⟩,
       ⟨"Site Name", jsOr incident.location.siteName "N/A"⟩,
       ⟨"Department", jsOr incident.location.department "N/A"⟩,
       ⟨"Area", jsOr incident.location.area "N/A"⟩] }

/-- The "Reported By" section pushed second by the mapper. -/
def reportedBySection (incident : IncidentReport) : PdfSection :=
  { title := "Reported By"
    rows :=
      [⟨"Name", incident.reportedBy.name⟩,
       ⟨"Job Title", jsOr incident.reportedBy.jobTitle "N/A"⟩,
       ⟨"Contact Number", jsOr incident.reportedBy.contactNumber "N/A"⟩,
       ⟨"Email", jsOr incident.reportedBy.email "N/A"⟩,
       ⟨"Employer", jsOr incident.reportedBy.employer "N/A"⟩] }

/-- Section body of the `if (incident.personInvolved)` block. -/
def personInvolvedSectionOf (p : PersonInvolved) : PdfSection :=
  { title := "Person Involved"
    rows :=
      [⟨"Full Name", p.fullName⟩,
       ⟨"Age", natStrOr p.age "N/A"⟩,
       ⟨"Role/Relationship", strOr p.roleOrRelationship "N/A"⟩,
       ⟨"Employer", jsOr p.employer "N/A"⟩,
       ⟨"Contact Details", jsOr p.contactDetails "N/A"⟩,
       ⟨"Relevant Training",
        if chainBool p.relevantTraining TrainingDetails.hasTraining then "Yes" else "No"⟩] }

/-- `sections` contribution of the `if (incident.personInvolved)` push. -/
def personPiece (incident : IncidentReport) : List PdfSection :=
  match incident.personInvolved with
  | some p => [personInvolvedSectionOf p]
  | none => []

/-- Body of `buildInjuryDetailsSection` after the `injuryDetails!` assertion. -/
def injurySectionOf (injury : InjuryDetails) : PdfSection :=
  { title := "Injury Details"
    rows :=
      [⟨"Nature of Injury", injury.natureOfInjury⟩,
       ⟨"Body Parts Affected", String.intercalate ", " injury.bodyPartsAffected⟩,
       ⟨"Severity", injury.severity.toUpper⟩,
       ⟨"First Aid Given",
        if chainBool injury.firstAidGiven FirstAidDetails.given then "Yes" else "No"⟩,
       ⟨"First Aid Details", jsOr (injury.firstAidGiven.bind FirstAidDetails.treatment) "N/A"⟩,
       ⟨"Hospital Visit",
        if chainBool injury.hospitalVisit HospitalVisit.wentToHospital then "Yes" else "No"⟩,
       ⟨"Hospital Name", jsOr (injury.hospitalVisit.bind HospitalVisit.hospitalName) "N/A"⟩,
       ⟨"Expected Lost Time (days)", natStrOr injury.expectedLostTimeDays "N/A"⟩,
       ⟨"PPE Used", if chainBool injury.ppeUsed PPEUsage.used then "Yes" else "No"⟩,
       ⟨"PPE Types",
        jsOr ((injury.ppeUsed.bind PPEUsage.types).map (String.intercalate ", ")) "N/A"⟩,
       ⟨"PPE Functioning Properly",
        if (injury.ppeUsed.bind PPEUsage.functioningProperly) == some true then "Yes"
        else "No"⟩] }

/-- Body of `buildPropertyDamageSection` after the assertion. -/
def propertySectionOf (damage : PropertyDamageDetails) : PdfSection :=
  { title := "Property Damage Details"
    rows :=
      [⟨"Asset Type", damage.assetType⟩,
       ⟨"Description", damage.assetDescription⟩,
       ⟨"Asset ID/Serial", jsOr damage.assetIdOrSerial "N/A"⟩,
       ⟨"Extent of Damage", damage.extentOfDamage⟩,
       ⟨"Estimated Cost",
        match damage.estimatedCost with
        | some c => if c == 0 then "N/A" else "£" ++ formatFixed 2 c
        | none => "N/A"⟩,
       ⟨"Urgent Repair Required",
        if damage.urgentRepairRequired == some true then "Yes" else "No"⟩,
       ⟨"Condition Before Incident", damage.conditionBeforeIncident⟩] }

/-- Body of `buildVehicleDetailsSection` after the assertion. -/
def vehicleSectionOf (vehicle : VehicleDetails) : PdfSection :=
  { title := "Vehicle Incident Details"
    rows :=
      [⟨"Vehicle Registration", vehicle.registration⟩,
       ⟨"Make/Model", jsOr vehicle.makeModel "N/A"⟩,
       ⟨"Company Vehicle", if vehicle.companyVehicle == some true then "Yes" else "No"⟩,
       ⟨"Driver Name", vehicle.driverName⟩,
       ⟨"Driver Licence Number", jsOr vehicle.driverLicenceNumber "N/A"⟩,
       ⟨"Police Notified", if vehicle.policeNotified == some true then "Yes" else "No"⟩,
       ⟨"Police Reference", jsOr vehicle.policeReferenceNumber "N/A"⟩,
       ⟨"Road Conditions", jsOr vehicle.roadConditions "N/A"⟩,
       ⟨"Weather Conditions", jsOr vehicle.weatherConditions "N/A"⟩,
       ⟨"Approximate Speed",
        match vehicle.approximateSpeedKmh with
        | some n => if n == 0 then "N/A" else toString n ++ " km/h"
        | none => "N/A"⟩] }

/-- Body of `buildPublicLiabilitySection` after the assertion. -/
def liabilitySectionOf (liability : PublicLiabilityDetails) : PdfSection :=
  { title := "Public Liability Details"
    rows :=
      [⟨"Reason for Being On Site", liability.reasonForBeingOnSite⟩,
       ⟨"Authorized Visitor", if liability.authorizedVisitor then "Yes" else "No"⟩,
       ⟨"Signed In", if liability.signedIn then "Yes" else "No"⟩,
       ⟨"Pre-existing Conditions", jsOr liability.preExistingConditions "None reported"⟩,
       ⟨"Refused Treatment", if liability.refusedTreatment then "Yes" else "No"⟩] }

/-- `buildIncidentDescriptionSection` (its sub-object is required and read
directly). -/
def incidentDescriptionSection (incident : IncidentReport) : PdfSection :=
  let desc := incident.incidentDescription
  { title := "Incident Description"
    rows :=
      [⟨"What Happened", desc.whatHappened⟩,
       ⟨"Sequence of Events", jsOr desc.sequenceOfEvents "N/A"⟩,
       ⟨"Activity at Time", jsOr desc.activityAtTime "N/A"⟩,
       ⟨"Immediate Cause", jsOr desc.immediateCause "N/A"⟩,
       ⟨"Unsafe Conditions", jsOr desc.unsafeConditions "N/A"⟩,
       ⟨"Unsafe Acts", jsOr desc.unsafeActs "N/A"⟩,
       ⟨"Environmental Factors", jsOr desc.environmentalFactors "N/A"⟩,
       ⟨"Equipment Factors", jsOr desc.equipmentFactors "N/A"⟩,
       ⟨"Supervision Present", desc.supervisionPresent⟩,
       ⟨"Area Previously Inspected", desc.areaPreviouslyInspected⟩] }

/-- Body of `buildWitnessesSection` after the `witnesses!` assertion:
one numbered row-triple per witness. -/
def witnessesSectionOf (ws : List Witness) : PdfSection :=
  { title := "Witness Information"
    rows :=
      (ws.enum.map (fun p =>
        [⟨"Witness " ++ toString (p.1 + 1) ++ " Name", p.2.name⟩,
         ⟨"Witness " ++ toString (p.1 + 1) ++ " Contact", jsOr p.2.contactDetails "N/A"⟩,
         ⟨"Witness " ++ toString (p.1 + 1) ++ " Statement",
          jsOr p.2.statement "No statement provided"⟩])).flatten }

/-- Body of `buildRootCauseSection` after the assertion. -/
def rootCauseSectionOf (rca : RootCauseAnalysis) : PdfSection :=
  { title := "Root Cause Analysis"
    rows :=
      [⟨"Direct Cause", jsOr rca.directCause "N/A"⟩,
       ⟨"Indirect Cause", jsOr rca.indirectCause "N/A"⟩,
       ⟨"Underlying Root Cause", jsOr rca.underlyingRootCause "N/A"⟩,
       ⟨"Contributing Factors",
        jsOr (rca.contributingFactors.map (String.intercalate ", ")) "N/A"⟩,
       ⟨"Preventative Measures", jsOr rca.preventativeMeasures "N/A"⟩,
       ⟨"Were Controls Adequate", rca.wereControlsAdequate⟩,
       ⟨"Controls Explanation", jsOr rca.controlsExplanation "N/A"⟩] }

/-- Body of `buildCorrectiveActionsTable` after the assertion. -/
def correctiveActionsTableOf (env : Env) (actions : List CorrectiveAction) :
    PdfTableSection :=
  { title := "Corrective Actions"
    headers := ["Action", "Responsible Person", "Due Date", "Status"]
    rows := actions.map (fun action =>
      [action.description,
       jsOr action.responsiblePerson "Unassigned",
       (match action.dueDate with
        | some d => if d == "" then "N/A" else formatDateUK env d
        | none => "N/A"),
       action.status.toUpper]) }

/-- Body of `buildSignaturesSection` after the `signatures!` assertion:
reporter, investigator and witness slots in that order. -/
def signaturesSectionOf (env : Env) (sigs : Signatures) : PdfSignatureSection :=
  { title := "Signatures"
    signatures :=
      (match sigs.reporter with
       | some s => [⟨s.name, some (jsOr s.role "Reporter"), formatDateUK env s.signedAt,
                     s.signatureImageUri⟩]
       | none => []) ++
      (match sigs.investigator with
       | some s => [⟨s.name, some (jsOr s.role "Investigator"), formatDateUK env s.signedAt,
                     s.signatureImageUri⟩]
       | none => []) ++
      (match sigs.witness with
       | some s => [⟨s.name, some "Witness", formatDateUK env s.signedAt,
                     s.signatureImageUri⟩]
       | none => []) }

/-- Guard `incident.category === 'personal_injury' && incident.injuryDetails`. -/
def injuryPiece (incident : IncidentReport) : List PdfSection :=
  if incident.category == "personal_injury" && incident.injuryDetails.isSome then
    match incident.injuryDetails with
    | some inj => [injurySectionOf inj]
    | none => []
  else []

/-- Guard `incident.category === 'property_damage' && incident.propertyDamageDetails`. -/
def propertyPiece (incident : IncidentReport) : List PdfSection :=
  if incident.category == "property_damage" && incident.propertyDamageDetails.isSome then
    match incident.propertyDamageDetails with
    | some d => [propertySectionOf d]
    | none => []
  else []

/-- Guard `incident.category === 'vehicle_incident' && incident.vehicleDetails`. -/
def vehiclePiece (incident : IncidentReport) : List PdfSection :=
  if incident.category == "vehicle_incident" && incident.vehicleDetails.isSome then
    match incident.vehicleDetails with
    | some v => [vehicleSectionOf v]
    | none => []
  else []

/-- Guard `incident.category === 'public_liability' && incident.publicLiabilityDetails`. -/
def liabilityPiece (incident : IncidentReport) : List PdfSection :=
  if incident.category == "public_liability" && incident.publicLiabilityDetails.isSome then
    match incident.publicLiabilityDetails with
    | some l => [liabilitySectionOf l]
    | none => []
  else []

/-- Guard `incident.witnesses && incident.witnesses.length > 0`. -/
def witnessPiece (incident : IncidentReport) : List PdfSection :=
  match incident.witnesses with
  | some ws => if decide (0 < ws.length) then [witnessesSectionOf ws] else []
  | none => []

/-- Guard `!summaryOnly && includeRootCause && incident.rootCauseAnalysis`. -/
def rootCausePiece (incident : IncidentReport) (options : PdfExportOptions) :
    Option PdfSection :=
  if !options.summaryOnly && options.includeRootCause then
    incident.rootCauseAnalysis.map rootCauseSectionOf
  else none

/-- Guard `!summaryOnly && includeCorrectiveActions && incident.correctiveActions`
(a present empty list is truthy in JS and yields a table with no data rows). -/
def correctiveActionsPiece (env : Env) (incident : IncidentReport)
    (options : PdfExportOptions) : Option PdfTableSection :=
  if !options.summaryOnly && options.includeCorrectiveActions then
    incident.correctiveActions.map (correctiveActionsTableOf env)
  else none

/-- Guard `includeAttachments && incident.attachments && attachments.length > 0`. -/
def attachmentsPiece (incident : IncidentReport) (options : PdfExportOptions) :
    Option PdfAttachmentSection :=
  match incident.attachments with
  | some atts =>
      if options.includeAttachments && decide (0 < atts.length) then
        some { title := "Attachments"
               attachments := atts.map (fun a => ⟨a.uri, a.caption⟩) }
      else none
  | none => none

/-- Guard `includeSignatures && incident.signatures`. -/
def signaturesPiece (env : Env) (incident : IncidentReport)
    (options : PdfExportOptions) : Option PdfSignatureSection :=
  if options.includeSignatures then
    incident.signatures.map (signaturesSectionOf env)
  else none

/-- `mapIncidentToPdfModel`: the full document-model mapper. -/
def mapIncidentToPdfModel (env : Env) (incident : IncidentReport)
    (options : PdfExportOptions) : PdfIncidentModel :=
  { title := if options.summaryOnly then "Incident Summary Report"
             else "Full Incident Investigation Report"
    referenceCode := incident.referenceCode
    categoryLabel := getCategoryLabel incident.category
    exportDate := formatDatePartsUK env.nowParts
    headerFields :=
      [("reference", incident.referenceCode),
       ("date", formatDateUK env incident.dateOfIncident),
       ("category", getCategoryLabel incident.category)]
    sections :=
      [incidentInfoSection env incident, reportedBySection incident] ++
      personPiece incident ++
      injuryPiece incident ++ propertyPiece incident ++
      vehiclePiece incident ++ liabilityPiece incident ++
      [incidentDescriptionSection incident] ++
      witnessPiece incident
    rootCauseSection := rootCausePiece incident options
    correctiveActionsSection := correctiveActionsPiece env incident options
    attachmentsSection := attachmentsPiece incident options
    signaturesSection := signaturesPiece env incident options }

/-! Assertion-instrumented variants: each `buildXxx` helper performs the
non-null assertion of the source before producing its section. -/

def buildInjuryDetailsSectionE (incident : IncidentReport) : Except String PdfSection := do
  let injury ← derefE "injuryDetails" incident.injuryDetails
  pure (injurySectionOf injury)

def buildPropertyDamageSectionE (incident : IncidentReport) : Except String PdfSection := do
  let damage ← derefE "propertyDamageDetails" incident.propertyDamageDetails
  pure (propertySectionOf damage)

def buildVehicleDetailsSectionE (incident : IncidentReport) : Except String PdfSection := do
  let vehicle ← derefE "vehicleDetails" incident.vehicleDetails
  pure (vehicleSectionOf vehicle)

def buildPublicLiabilitySectionE (incident : IncidentReport) : Except String PdfSection := do
  let liability ← derefE "publicLiabilityDetails" incident.publicLiabilityDetails
  pure (liabilitySectionOf liability)

def buildWitnessesSectionE (incident : IncidentReport) : Except String PdfSection := do
  let ws ← derefE "witnesses" incident.witnesses
  pure (witnessesSectionOf ws)

def buildRootCauseSectionE (incident : IncidentReport) : Except String PdfSection := do
  let rca ← derefE "rootCauseAnalysis" incident.rootCauseAnalysis
  pure (rootCauseSectionOf rca)

def buildCorrectiveActionsTableE (env : Env) (incident : IncidentReport) :
    Except String PdfTableSection := do
  let actions ← derefE "correctiveActions" incident.correctiveActions
  pure (correctiveActionsTableOf env actions)

def buildSignaturesSectionE (env : Env) (incident : IncidentReport) :
    Except String PdfSignatureSection := do
  let sigs ← derefE "signatures" incident.signatures
  pure (signaturesSectionOf env sigs)

def injuryPieceE (incident : IncidentReport) : Except String (List PdfSection) :=
  if incident.category == "personal_injury" && incident.injuryDetails.isSome then do
    let s ← buildInjuryDetailsSectionE incident
    pure [s]
  else pure []

def propertyPieceE (incident : IncidentReport) : Except String (List PdfSection) :=
  if incident.category == "property_damage" && incident.propertyDamageDetails.isSome then do
    let s ← buildPropertyDamageSectionE incident
    pure [s]
  else pure []

def vehiclePieceE (incident : IncidentReport) : Except String (List PdfSection) :=
  if incident.category == "vehicle_incident" && incident.vehicleDetails.isSome then do
    let s ← buildVehicleDetailsSectionE incident
    pure [s]
  else pure []

def liabilityPieceE (incident : IncidentReport) : Except String (List PdfSection) :=
  if incident.category == "public_liability" && incident.publicLiabilityDetails.isSome then do
    let s ← buildPublicLiabilitySectionE incident
    pure [s]
  else pure []

def witnessPieceE (incident : IncidentReport) : Except String (List PdfSection) :=
  if (match incident.witnesses with
      | some ws => decide (0 < ws.length)
      | none => false) then do
    let s ← buildWitnessesSectionE incident
    pure [s]
  else pure []

def rootCausePieceE (incident : IncidentReport) (options : PdfExportOptions) :
    Except String (Option PdfSection) :=
  if !options.summaryOnly && options.includeRootCause &&
      incident.rootCauseAnalysis.isSome then do
    let s ← buildRootCauseSectionE incident
    pure (some s)
  else pure none

def correctiveActionsPieceE (env : Env) (incident : IncidentReport)
    (options : PdfExportOptions) : Except String (Option PdfTableSection) :=
  if !options.summaryOnly && options.includeCorrectiveActions &&
      incident.correctiveActions.isSome then do
    let t ← buildCorrectiveActionsTableE env incident
    pure (some t)
  else pure none

def signaturesPieceE (env : Env) (incident : IncidentReport)
    (options : PdfExportOptions) : Except String (Option PdfSignatureSection) :=
  if options.includeSignatures && incident.signatures.isSome then do
    let s ← buildSignaturesSectionE env incident
    pure (some s)
  else pure none

/-- `mapIncidentToPdfModel` with every non-null assertion made explicit:
an `Except.error` is a thrown `TypeError`. -/
def mapIncidentToPdfModelE (env : Env) (incident : IncidentReport)
    (options : PdfExportOptions) : Except String PdfIncidentModel := do
  let injSecs ← injuryPieceE incident
  let propSecs ← propertyPieceE incident
  let vehSecs ← vehiclePieceE incident
  let liabSecs ← liabilityPieceE incident
  let witSecs ← witnessPieceE incident
  let rootCauseSec ← rootCausePieceE incident options
  let caSec ← correctiveActionsPieceE env incident options
  let sigSec ← signaturesPieceE env incident options
  pure
    { title := if options.summaryOnly then "Incident Summary Report"
               else "Full Incident Investigation Report"
      referenceCode := incident.referenceCode
      categoryLabel := getCategoryLabel incident.category
      exportDate := formatDatePartsUK env.nowParts
      headerFields :=
        [("reference", incident.referenceCode),
         ("date", formatDateUK env incident.dateOfIncident),
         ("category", getCategoryLabel incident.category)]
      sections :=
        [incidentInfoSection env incident, reportedBySection incident] ++
        personPiece incident ++
        injSecs ++ propSecs ++ vehSecs ++ liabSecs ++
        [incidentDescriptionSection incident] ++
        witSecs
      rootCauseSection := rootCauseSec
      correctiveActionsSection := caSec
      attachmentsSection := attachmentsPiece incident options
      signaturesSection := sigSec }

/-! The page-flow layout logic of `buildPdfDocument`. Drawing calls do not
move the cursor; only the page-break checks and the fixed height increments
do, so the layout is embedded as a cursor machine over exact rationals
(every constant of the source is decimal-exact). -/

def PAGE_HEIGHT : ℚ := 84189 / 100
def MARGIN_TOP : ℚ := 50
def MARGIN_BOTTOM : ℚ := 50

/-- Cursor state of one render: pages emitted so far beyond the first, and
the vertical position on the current page. -/
structure LayoutState where
  pages : Nat
  yPos : ℚ
  deriving DecidableEq

/-- The page-break check `if (yPos > PAGE_HEIGHT - MARGIN_BOTTOM - reserve)
{ doc.addPage(); yPos = MARGIN_TOP; }`, with the per-section-kind reserve
constant (100 and 50 in `addSection`, 150 and 30 in `addTable`, 200 in
`addSignatures`). -/
def breakCheck (reserve : ℚ) (st : LayoutState) : LayoutState :=
  if PAGE_HEIGHT - MARGIN_BOTTOM - reserve < st.yPos then
    { pages := st.pages + 1, yPos := MARGIN_TOP }
  else st

/-- One iteration of the row loop in `addSection`: break check with reserve
50, draw, `yPos += 20`. -/
def sectionRowStep (st : LayoutState) : LayoutState :=
  let st1 := breakCheck 50 st
  { st1 with yPos := st1.yPos + 20 }

/-- `addSection`: title break check (reserve 100), title, `yPos += 25`, the
row loop, trailing `yPos += 15`. -/
def addSection (st : LayoutState) (s : PdfSection) : LayoutState :=
  let st0 := breakCheck 100 st
  let st1 := { st0 with yPos := st0.yPos + 25 }
  let st2 := s.rows.foldl (fun acc _ => sectionRowStep acc) st1
  { st2 with yPos := st2.yPos + 15 }

/-- One iteration of the row loop in `addTable`: break check with reserve
30, draw, `yPos += 25`. -/
def tableRowStep (st : LayoutState) : LayoutState :=
  let st1 := breakCheck 30 st
  { st1 with yPos := st1.yPos + 25 }

/-- `addTable`: title break check (reserve 150), title, `yPos += 25`,
header row `yPos += 20`, the row loop, trailing `yPos += 15`. -/
def addTable (st : LayoutState) (t : PdfTableSection) : LayoutState :=
  let st0 := breakCheck 150 st
  let st1 := { st0 with yPos := st0.yPos + 25 }
  let st2 := { st1 with yPos := st1.yPos + 20 }
  let st3 := t.rows.foldl (fun acc _ => tableRowStep acc) st2
  { st3 with yPos := st3.yPos + 15 }

/-- `addSignatures`: one break check with reserve 200, title `yPos += 25`,
then a fixed `yPos += 80` block per signer with no inner break check. -/
def addSignatures (st : LayoutState) (s : PdfSignatureSection) : LayoutState :=
  let st0 := breakCheck 200 st
  let st1 := { st0 with yPos := st0.yPos + 25 }
  s.signatures.foldl (fun acc _ => { acc with yPos := acc.yPos + 80 }) st1

/-! Concrete sample data used to evaluate the embedding on closed inputs. -/

/-- A concrete environment: every date string parses to epoch 0, which is
not after the end of "today". -/
def sampleEnv : Env :=
  { parseMillis := fun _ => 0
    endOfTodayMillis := 0
    dateParts := fun _ => ⟨14, 3, 2024⟩
    nowParts := ⟨15, 3, 2024⟩ }

def sampleLocation : IncidentLocation :=
  { gpsCoordinates := none
    manualAddress := some "1 High Street, Leeds"
    siteName := none
    department := none
    area := none }

def sampleReporter : ReportingPerson :=
  { name := "Rita Reporter"
    jobTitle := none
    contactNumber := none
    email := none
    employer := none }

def sampleDescription : IncidentDescription :=
  { whatHappened := "Slipped on a wet floor near the loading bay"
    sequenceOfEvents := none
    activityAtTime := none
    immediateCause := none
    unsafeConditions := none
    unsafeActs := none
    environmentalFactors := none
    equipmentFactors := none
    supervisionPresent := "yes"
    areaPreviouslyInspected := "no" }

def sampleInjury : InjuryDetails :=
  { natureOfInjury := "Bruise"
    bodyPartsAffected := ["knee"]
    severity := "minor"
    firstAidGiven := none
    hospitalVisit := none
    expectedLostTimeDays := none
    ppeUsed := some { used := true, types := none, functioningProperly := none } }

/-- The round-trip personal-injury record of the specified scenario. -/
def piRecord : IncidentReport :=
  { referenceCode := "INC-20240314-0001"
    category := "personal_injury"
    dateOfIncident := "2024-03-14"
    timeOfIncident := "14:30"
    location := sampleLocation
    reportedBy := sampleReporter
    witnesses := none
    personInvolved := some
      { fullName := "Ivy Involved", age := none, roleOrRelationship := "employee"
        employer := none, contactDetails := none, relevantTraining := none }
    injuryDetails := some sampleInjury
    propertyDamageDetails := none
    vehicleDetails := none
    publicLiabilityDetails := none
    incidentDescription := sampleDescription
    rootCauseAnalysis := none
    correctiveActions := none
    attachments := none
    signatures := none
    riddorAssessment := none }

/-- Vehicle details that pass every vehicle rule except the police-reference
one: police notified, no reference number. -/
def vehicleNotified : VehicleDetails :=
  { companyVehicle := some true
    registration := "AB12CDE"
    makeModel := none
    driverName := "Dan Driver"
    driverLicenceNumber := none
    policeNotified := some true
    policeReferenceNumber := none
    roadConditions := none
    weatherConditions := none
    approximateSpeedKmh := none }

/-- An otherwise fully valid vehicle incident whose police reference number
is absent while the police were notified. -/
def vehicleRecord : IncidentReport :=
  { piRecord with
      category := "vehicle_incident"
      personInvolved := none
      injuryDetails := none
      vehicleDetails := some vehicleNotified }

/-- A property-damage record with a severe injury sub-record and no RIDDOR
assessment. -/
def severePropertyRecord : IncidentReport :=
  { piRecord with
      category := "property_damage"
      injuryDetails := some { sampleInjury with severity := "severe" }
      propertyDamageDetails := some
        { assetType := "equipment"
          assetDescription := "Forklift mast bent"
          assetIdOrSerial := none
          extentOfDamage := "Mast bent beyond repair"
          estimatedCost := none
          urgentRepairRequired := some true
          conditionBeforeIncident := "good" } }

/-! Theorems settling the claims. -/

/-- C10: for every record and options, `validateIncidentForPDF` returns
exactly the warnings list of plain `validateIncident` on the same record;
the export-only, signature and photo rules only ever extend the error list. -/
theorem validateForExport_warnings_eq (env : Env) (incident : IncidentReport)
    (options : PdfExportOptions) :
    (validateIncidentForPDF env incident options).warnings =
      (validateIncident env incident).warnings := rfl

/-- C9: `validateIncident` is deterministic and order-stable — it is a pure
function of the ambient clock environment and of the record, so two calls
on the identical input under the same clock return the identical result,
error and warning lists included, element for element. -/
theorem validateIncident_deterministic (env1 env2 : Env) (r1 r2 : IncidentReport)
    (henv : env1 = env2) (hrec : r1 = r2) :
    validateIncident env1 r1 = validateIncident env2 r2 := by
  subst henv; subst hrec; rfl

/-- Witness for C9 at a concrete environment and record. -/
theorem validateIncident_deterministic_witness :
    validateIncident sampleEnv piRecord = validateIncident sampleEnv piRecord :=
  validateIncident_deterministic sampleEnv sampleEnv piRecord piRecord rfl rfl

/-- C1 (code bug): on an otherwise fully valid vehicle incident with
`policeNotified = true` and no reference number, the "strongly recommended"
police-reference finding is pushed into the blocking `errors` list — it is
the only error, it makes `valid` false, and it does not appear in the
warnings list. -/
theorem policeReference_blocks_validation :
    (validateIncident sampleEnv vehicleRecord).errors =
      [⟨"vehicleDetails.policeReferenceNumber",
        "Police reference number is strongly recommended when police are notified",
        "Vehicle Details"⟩] ∧
    (validateIncident sampleEnv vehicleRecord).valid = false ∧
    ((validateIncident sampleEnv vehicleRecord).warnings.all
      (fun w => w.field != "vehicleDetails.policeReferenceNumber")) = true := by
  decide

/-- C4 counterexample: a record whose injury severity is `severe` under
category `property_damage`, with no RIDDOR assessment, receives no
compliance-reminder warning — refuting the claim that the warning is
emitted for severe injuries of any category. -/
theorem riddorWarning_missing_for_severe_property_damage :
    injSeverity severePropertyRecord = "severe" ∧
    severePropertyRecord.riddorAssessment = none ∧
    riddorWarning ∉ generateWarnings severePropertyRecord := by
  decide

/-- C3 counterexample: a section row whose cursor sits exactly at the
configured near-bottom threshold (`PAGE_HEIGHT - MARGIN_BOTTOM - 50`) is
drawn on the current page — no page is added and the cursor advances in
place instead of resetting to the top margin. -/
theorem pageBreak_at_threshold_no_break :
    (sectionRowStep ⟨0, (74189 : ℚ) / 100⟩).pages = 0 ∧
    (sectionRowStep ⟨0, (74189 : ℚ) / 100⟩).yPos = (74189 : ℚ) / 100 + 20 ∧
    (sectionRowStep ⟨0, (74189 : ℚ) / 100⟩).yPos ≠ MARGIN_TOP + 20 := by
  refine ⟨?_, ?_, ?_⟩ <;>
    simp [sectionRowStep, breakCheck, PAGE_HEIGHT, MARGIN_TOP, MARGIN_BOTTOM] <;>
    norm_num

/-- C3 amended: the page break before a row is boundary-exclusive, not
boundary-inclusive — for label/value section rows (reserve 50) and table
rows (reserve 30), a new page is started exactly when the cursor strictly
exceeds the threshold; at exactly the threshold the row is drawn on the
current page at the unreset cursor. -/
theorem pageBreak_strict_boundary (st : LayoutState) :
    ((sectionRowStep st).pages = st.pages + 1 ↔
      PAGE_HEIGHT - MARGIN_BOTTOM - 50 < st.yPos) ∧
    (PAGE_HEIGHT - MARGIN_BOTTOM - 50 < st.yPos →
      (sectionRowStep st).yPos = MARGIN_TOP + 20) ∧
    (st.yPos = PAGE_HEIGHT - MARGIN_BOTTOM - 50 →
      sectionRowStep st = ⟨st.pages, st.yPos + 20⟩) ∧
    ((tableRowStep st).pages = st.pages + 1 ↔
      PAGE_HEIGHT - MARGIN_BOTTOM - 30 < st.yPos) ∧
    (st.yPos = PAGE_HEIGHT - MARGIN_BOTTOM - 30 →
      tableRowStep st = ⟨st.pages, st.yPos + 25⟩) := by
  obtain ⟨p, y⟩ := st
  refine ⟨?_, ?_, ?_, ?_, ?_⟩
  · by_cases h : PAGE_HEIGHT - MARGIN_BOTTOM - 50 < y <;>
      simp [sectionRowStep, breakCheck, h]
  · intro h
    simp [sectionRowStep, breakCheck, h]
  · intro h
    have hy : y = PAGE_HEIGHT - MARGIN_BOTTOM - 50 := h
    have hnot : ¬ PAGE_HEIGHT - MARGIN_BOTTOM - 50 < y := by
      rw [hy]; exact lt_irrefl _
    simp [sectionRowStep, breakCheck, hnot]
  · by_cases h : PAGE_HEIGHT - MARGIN_BOTTOM - 30 < y <;>
      simp [tableRowStep, breakCheck, h]
  · intro h
    have hy : y = PAGE_HEIGHT - MARGIN_BOTTOM - 30 := h
    have hnot : ¬ PAGE_HEIGHT - MARGIN_BOTTOM - 30 < y := by
      rw [hy]; exact lt_irrefl _
    simp [tableRowStep, breakCheck, hnot]

/-- Witness for C3 at concrete cursor positions on both sides of each
threshold. -/
theorem pageBreak_strict_boundary_witness :
    (sectionRowStep ⟨0, 800⟩).pages = 0 + 1 ∧
    (sectionRowStep ⟨1, (74189 : ℚ) / 100⟩) = ⟨1, (74189 : ℚ) / 100 + 20⟩ ∧
    (tableRowStep ⟨2, (76189 : ℚ) / 100⟩) = ⟨2, (76189 : ℚ) / 100 + 25⟩ := by
  refine ⟨?_, ?_, ?_⟩
  · exact (pageBreak_strict_boundary ⟨0, 800⟩).1.mpr
      (by norm_num [PAGE_HEIGHT, MARGIN_BOTTOM])
  · exact (pageBreak_strict_boundary ⟨1, (74189 : ℚ) / 100⟩).2.2.1
      (by norm_num [PAGE_HEIGHT, MARGIN_BOTTOM])
  · exact (pageBreak_strict_boundary ⟨2, (76189 : ℚ) / 100⟩).2.2.2.2
      (by norm_num [PAGE_HEIGHT, MARGIN_BOTTOM])

/-- C8: with no attachment data — absent or empty list — the document model
contains no attachment section even when `includeAttachments` is set: the
section is gated on data presence, not on the flag alone. -/
theorem attachmentsSection_requires_data (env : Env) (incident : IncidentReport)
    (options : PdfExportOptions)
    (hdata : incident.attachments = none ∨ incident.attachments = some [])
    (_hflag : options.includeAttachments = true) :
    (mapIncidentToPdfModel env incident options).attachmentsSection = none := by
  have : attachmentsPiece incident options = none := by
    rcases hdata with h | h <;> simp [attachmentsPiece, h]
  simpa [mapIncidentToPdfModel] using this

/-- Witness for C8 on a concrete record with no attachments and the flag
set. -/
theorem attachmentsSection_requires_data_witness :
    (mapIncidentToPdfModel sampleEnv piRecord
      ⟨false, false, false, false, false, false, true⟩).attachmentsSection = none :=
  attachmentsSection_requires_data sampleEnv piRecord
    ⟨false, false, false, false, false, false, true⟩ (Or.inl rfl) rfl

/-! Totality of the mapper: every non-null assertion sits behind the guard
that establishes it, piece by piece. -/

lemma injuryPieceE_eq (r : IncidentReport) :
    injuryPieceE r = Except.ok (injuryPiece r) := by
  unfold injuryPieceE injuryPiece buildInjuryDetailsSectionE derefE
  cases h : r.injuryDetails with
  | none => simp [h, pure, Except.pure]
  | some inj =>
      by_cases hc : (r.category == "personal_injury") = true <;>
        simp [h, hc, Bind.bind, Except.bind, pure, Except.pure]

lemma propertyPieceE_eq (r : IncidentReport) :
    propertyPieceE r = Except.ok (propertyPiece r) := by
  unfold propertyPieceE propertyPiece buildPropertyDamageSectionE derefE
  cases h : r.propertyDamageDetails with
  | none => simp [h, pure, Except.pure]
  | some d =>
      by_cases hc : (r.category == "property_damage") = true <;>
        simp [h, hc, Bind.bind, Except.bind, pure, Except.pure]

lemma vehiclePieceE_eq (r : IncidentReport) :
    vehiclePieceE r = Except.ok (vehiclePiece r) := by
  unfold vehiclePieceE vehiclePiece buildVehicleDetailsSectionE derefE
  cases h : r.vehicleDetails with
  | none => simp [h, pure, Except.pure]
  | some v =>
      by_cases hc : (r.category == "vehicle_incident") = true <;>
        simp [h, hc, Bind.bind, Except.bind, pure, Except.pure]

lemma liabilityPieceE_eq (r : IncidentReport) :
    liabilityPieceE r = Except.ok (liabilityPiece r) := by
  unfold liabilityPieceE liabilityPiece buildPublicLiabilitySectionE derefE
  cases h : r.publicLiabilityDetails with
  | none => simp [h, pure, Except.pure]
  | some l =>
      by_cases hc : (r.category == "public_liability") = true <;>
        simp [h, hc, Bind.bind, Except.bind, pure, Except.pure]

lemma witnessPieceE_eq (r : IncidentReport) :
    witnessPieceE r = Except.ok (witnessPiece r) := by
  unfold witnessPieceE witnessPiece buildWitnessesSectionE derefE
  cases h : r.witnesses with
  | none => simp [h, pure, Except.pure]
  | some ws =>
      by_cases hc : (0 : Nat) < ws.length <;>
        simp [h, hc, Bind.bind, Except.bind, pure, Except.pure]

lemma rootCausePieceE_eq (r : IncidentReport) (o : PdfExportOptions) :
    rootCausePieceE r o = Except.ok (rootCausePiece r o) := by
  unfold rootCausePieceE rootCausePiece buildRootCauseSectionE derefE
  cases h : r.rootCauseAnalysis with
  | none => simp [h, pure, Except.pure]
  | some rca =>
      by_cases hc : (!o.summaryOnly && o.includeRootCause) = true <;>
        simp [h, hc, Bind.bind, Except.bind, pure, Except.pure]

lemma correctiveActionsPieceE_eq (env : Env) (r : IncidentReport) (o : PdfExportOptions) :
    correctiveActionsPieceE env r o = Except.ok (correctiveActionsPiece env r o) := by
  unfold correctiveActionsPieceE correctiveActionsPiece buildCorrectiveActionsTableE derefE
  cases h : r.correctiveActions with
  | none => simp [h, pure, Except.pure]
  | some actions =>
      by_cases hc : (!o.summaryOnly && o.includeCorrectiveActions) = true <;>
        simp [h, hc, Bind.bind, Except.bind, pure, Except.pure]

lemma signaturesPieceE_eq (env : Env) (r : IncidentReport) (o : PdfExportOptions) :
    signaturesPieceE env r o = Except.ok (signaturesPiece env r o) := by
  unfold signaturesPieceE signaturesPiece buildSignaturesSectionE derefE
  cases h : r.signatures with
  | none => simp [h, pure, Except.pure]
  | some sigs =>
      by_cases hc : o.includeSignatures = true <;>
        simp [h, hc, Bind.bind, Except.bind, pure, Except.pure]

/-- C2: on every incident record (with optional sub-objects arbitrarily
absent) and every options value, the mapper completes without any assertion
failing — the instrumented mapper returns `Except.ok` of the total mapper's
document model — and a missing optional value is rendered as the "N/A"
substitute (witnessed here by the Job Title row). -/
theorem mapIncidentToPdfModel_never_throws (env : Env) (r : IncidentReport)
    (o : PdfExportOptions) :
    mapIncidentToPdfModelE env r o = Except.ok (mapIncidentToPdfModel env r o) ∧
    (r.reportedBy.jobTitle = none →
      ∃ s ∈ (mapIncidentToPdfModel env r o).sections,
        (⟨"Job Title", "N/A"⟩ : PdfRow) ∈ s.rows) := by
  constructor
  · unfold mapIncidentToPdfModelE mapIncidentToPdfModel
    simp only [injuryPieceE_eq, propertyPieceE_eq, vehiclePieceE_eq, liabilityPieceE_eq,
      witnessPieceE_eq, rootCausePieceE_eq, correctiveActionsPieceE_eq, signaturesPieceE_eq]
    rfl
  · intro h
    refine ⟨reportedBySection r, ?_, ?_⟩
    · unfold mapIncidentToPdfModel
      simp [List.mem_append]
    · simp [reportedBySection, jsOr, h]

/-- Witness for C2 on a concrete record whose job title is absent. -/
theorem mapIncidentToPdfModel_never_throws_witness :
    mapIncidentToPdfModelE sampleEnv piRecord
        ⟨false, false, false, false, false, false, false⟩ =
      Except.ok (mapIncidentToPdfModel sampleEnv piRecord
        ⟨false, false, false, false, false, false, false⟩) ∧
    (∃ s ∈ (mapIncidentToPdfModel sampleEnv piRecord
        ⟨false, false, false, false, false, false, false⟩).sections,
      (⟨"Job Title", "N/A"⟩ : PdfRow) ∈ s.rows) := by
  refine ⟨(mapIncidentToPdfModel_never_throws sampleEnv piRecord _).1, ?_⟩
  exact (mapIncidentToPdfModel_never_throws sampleEnv piRecord
    ⟨false, false, false, false, false, false, false⟩).2 rfl

/-! The RIDDOR compliance warning: where it can and cannot come from. -/

lemma witnessField_ne_riddor (s : String) :
    ("witnesses[" ++ s ++ "].statement" : String) ≠ "riddorAssessment" := by
  intro h
  have hlen := congrArg String.length h
  rw [String.length_append, String.length_append] at hlen
  have h1 : ("witnesses[" : String).length = 10 := rfl
  have h2 : ("].statement" : String).length = 11 := rfl
  have h3 : ("riddorAssessment" : String).length = 16 := rfl
  rw [h1, h2, h3] at hlen
  omega

lemma riddor_notMem_email (r : IncidentReport) :
    riddorWarning ∉ emailWarningPart r := by
  unfold emailWarningPart
  split
  · split
    · decide
    · simp
  · simp

lemma riddor_notMem_phone (r : IncidentReport) :
    riddorWarning ∉ phoneWarningPart r := by
  unfold phoneWarningPart
  split
  · split
    · decide
    · simp
  · simp

lemma riddor_notMem_witness (r : IncidentReport) :
    riddorWarning ∉ witnessWarningPart r := by
  unfold witnessWarningPart
  split
  · split
    · intro hmem
      rw [List.mem_flatten] at hmem
      obtain ⟨l, hl, hwl⟩ := hmem
      rw [List.mem_map] at hl
      obtain ⟨p, _, rfl⟩ := hl
      revert hwl
      split
      · intro hwl
        rw [List.mem_singleton] at hwl
        exact witnessField_ne_riddor (toString p.1)
          (congrArg ValidationError.field hwl).symm
      · intro hwl
        simp at hwl
    · simp
  · simp

lemma riddor_notMem_attachments (r : IncidentReport) :
    riddorWarning ∉ attachmentsWarningPart r := by
  unfold attachmentsWarningPart
  split
  · decide
  · simp

lemma riddor_mem_part_iff (r : IncidentReport) :
    riddorWarning ∈ riddorWarningPart r ↔
      (r.riddorAssessment = none ∧
        ((r.category = "personal_injury" ∧ injSeverity r = "severe") ∨
          injSeverity r = "fatal")) := by
  unfold riddorWarningPart
  by_cases hcond : ((r.category == "personal_injury" && injSeverity r == "severe") ||
      injSeverity r == "fatal") = true
  · rw [if_pos hcond]
    have hc : (r.category = "personal_injury" ∧ injSeverity r = "severe") ∨
        injSeverity r = "fatal" := by
      simpa [Bool.or_eq_true, Bool.and_eq_true, beq_iff_eq] using hcond
    by_cases hn : r.riddorAssessment = none
    · rw [if_pos (by simp [hn])]
      simp [hn, hc]
    · rw [if_neg (by simp [Option.isNone_iff_eq_none, hn])]
      simp [hn]
  · rw [if_neg hcond]
    have hc : ¬((r.category = "personal_injury" ∧ injSeverity r = "severe") ∨
        injSeverity r = "fatal") := by
      simpa [Bool.or_eq_true, Bool.and_eq_true, beq_iff_eq] using hcond
    simp [hc]

/-- C4 amended: the compliance-reminder warning is present exactly when no
RIDDOR assessment record exists and either the category is
`personal_injury` with severity `severe`, or the severity is `fatal` (of
any category) — the source's operator precedence excludes `severe`
injuries of other categories. -/
theorem riddorWarning_iff (r : IncidentReport) :
    riddorWarning ∈ generateWarnings r ↔
      (r.riddorAssessment = none ∧
        ((r.category = "personal_injury" ∧ injSeverity r = "severe") ∨
          injSeverity r = "fatal")) := by
  unfold generateWarnings
  simp only [List.mem_append, riddor_notMem_email r, riddor_notMem_phone r,
    riddor_notMem_witness r, riddor_notMem_attachments r, false_or]
  exact riddor_mem_part_iff r

/-- Witness for C4 on a concrete fatal-severity vehicle record and on the
severe personal-injury side. -/
theorem riddorWarning_iff_witness :
    riddorWarning ∈ generateWarnings
      { piRecord with injuryDetails := some { sampleInjury with severity := "fatal" } } ∧
    riddorWarning ∈ generateWarnings
      { piRecord with injuryDetails := some { sampleInjury with severity := "severe" } } := by
  constructor
  · exact (riddorWarning_iff _).mpr ⟨rfl, Or.inr rfl⟩
  · exact (riddorWarning_iff _).mpr ⟨rfl, Or.inl ⟨rfl, rfl⟩⟩

/-! Shared facts about the base rules: a record satisfying each base rule
produces no base error. -/

lemma blankStr_eq_false_of_trim {s : String} (h : jsTrim s ≠ "") :
    blankStr s = false := by
  have hs : s ≠ "" := by
    intro he
    apply h
    rw [he]
    rfl
  simp only [blankStr, Bool.or_eq_false_iff, beq_eq_false_iff_ne, ne_eq]
  exact ⟨hs, h⟩

lemma validateBasicInfo_eq_nil (env : Env) (r : IncidentReport)
    (hcat : r.category ≠ "")
    (hd1 : r.dateOfIncident ≠ "")
    (hd2 : env.parseMillis r.dateOfIncident ≤ env.endOfTodayMillis)
    (ht1 : r.timeOfIncident ≠ "")
    (ht2 : isValidTime r.timeOfIncident = true)
    (hloc : r.location.gpsCoordinates.isSome = true ∨
      strTruthy r.location.manualAddress = true)
    (hw1 : jsTrim r.incidentDescription.whatHappened ≠ "")
    (hw2 : 20 ≤ r.incidentDescription.whatHappened.length)
    (hn : jsTrim r.reportedBy.name ≠ "") :
    validateBasicInfo env r = [] := by
  have hlocb : (r.location.gpsCoordinates.isNone &&
      !strTruthy r.location.manualAddress) = false := by
    rcases hloc with h | h
    · cases hgps : r.location.gpsCoordinates with
      | none => rw [hgps] at h; simp at h
      | some g => simp [hgps]
    · simp [h]
  have c1 : (r.category == "") = false := by simp [hcat]
  have c2 : (r.dateOfIncident == "") = false := by simp [hd1]
  have c3 : ¬ env.parseMillis r.dateOfIncident > env.endOfTodayMillis := not_lt.mpr hd2
  have c4 : (r.timeOfIncident == "") = false := by simp [ht1]
  have c5 : (!isValidTime r.timeOfIncident) = false := by simp [ht2]
  have c7 : blankStr r.incidentDescription.whatHappened = false :=
    blankStr_eq_false_of_trim hw1
  have c8 : ¬ r.incidentDescription.whatHappened.length < 20 := Nat.not_lt.mpr hw2
  have c9 : blankStr r.reportedBy.name = false := blankStr_eq_false_of_trim hn
  simp [validateBasicInfo, c1, c2, c3, c4, c5, hlocb, c7, c8, c9]

/-- C5: a record with category `personal_injury`, an incident date no later
than the end of today, time `"14:30"`, a manual address, a non-blank
reporter name, a description of at least 20 characters (with content), a
person-involved name, and injury details carrying a nature of injury,
severity `minor`, at least one body part and a present `ppeUsed` object, is
accepted: `valid` is true and the error list is empty. -/
theorem roundTrip_personalInjury_valid (env : Env) (r : IncidentReport)
    (inj : InjuryDetails) (p : PersonInvolved)
    (hcat : r.category = "personal_injury")
    (hd1 : r.dateOfIncident ≠ "")
    (hd2 : env.parseMillis r.dateOfIncident ≤ env.endOfTodayMillis)
    (htime : r.timeOfIncident = "14:30")
    (hloc : strTruthy r.location.manualAddress = true)
    (hname : jsTrim r.reportedBy.name ≠ "")
    (hw1 : jsTrim r.incidentDescription.whatHappened ≠ "")
    (hw2 : 20 ≤ r.incidentDescription.whatHappened.length)
    (hp : r.personInvolved = some p)
    (hpname : jsTrim p.fullName ≠ "")
    (hinj : r.injuryDetails = some inj)
    (hnat : jsTrim inj.natureOfInjury ≠ "")
    (hsev : inj.severity = "minor")
    (hbody : inj.bodyPartsAffected ≠ [])
    (hppe : inj.ppeUsed.isSome = true) :
    (validateIncident env r).valid = true ∧ (validateIncident env r).errors = [] := by
  have hbasic : validateBasicInfo env r = [] :=
    validateBasicInfo_eq_nil env r (by simp [hcat]) hd1 hd2
      (by rw [htime]; decide) (by rw [htime]; decide) (Or.inr hloc) hw1 hw2 hname
  have hpi : validatePersonalInjury r = [] := by
    have e1 : blankStr (chainStr r.personInvolved PersonInvolved.fullName) = false := by
      rw [hp]
      exact blankStr_eq_false_of_trim hpname
    have e2 : blankStr (chainStr r.injuryDetails InjuryDetails.natureOfInjury) = false := by
      rw [hinj]
      exact blankStr_eq_false_of_trim hnat
    have e3 : (chainStr r.injuryDetails InjuryDetails.severity == "") = false := by
      rw [hinj]
      simp [chainStr, hsev]
    have e4 : (match r.injuryDetails with
        | some d => d.bodyPartsAffected.isEmpty
        | none => true) = false := by
      rw [hinj]
      simpa using hbody
    have e5 : (r.injuryDetails.bind InjuryDetails.ppeUsed).isNone = false := by
      obtain ⟨ppe, hppe2⟩ := Option.isSome_iff_exists.mp hppe
      rw [hinj]
      simp [hppe2]
    simp [validatePersonalInjury, e1, e2, e3, e4, e5]
  have herr : (validateIncident env r).errors = [] := by
    simp [validateIncident, hbasic, hcat, hpi]
  have hv : (validateIncident env r).valid =
      ((validateIncident env r).errors.length == 0) := rfl
  refine ⟨?_, herr⟩
  rw [hv, herr]
  rfl

/-- Witness for C5: the concrete round-trip record is accepted. -/
theorem roundTrip_personalInjury_valid_witness :
    (validateIncident sampleEnv piRecord).valid = true ∧
    (validateIncident sampleEnv piRecord).errors = [] :=
  roundTrip_personalInjury_valid sampleEnv piRecord sampleInjury
    ⟨"Ivy Involved", none, "employee", none, none, none⟩
    rfl (by decide) (by decide) rfl (by decide) (by decide) (by decide)
    (by decide) rfl (by decide) rfl (by decide) rfl (by decide) (by decide)

/-- C7: a record satisfying every other rule whose category is
`vehicle_incident` with registration `"INVALID"` produces exactly one
blocking error — on `vehicleDetails.registration`, with the UK-format
message, not the missing-registration message — and is invalid. -/
theorem invalidRegistration_single_error (env : Env) (r : IncidentReport)
    (vd : VehicleDetails)
    (hcat : r.category = "vehicle_incident")
    (hd1 : r.dateOfIncident ≠ "")
    (hd2 : env.parseMillis r.dateOfIncident ≤ env.endOfTodayMillis)
    (ht1 : r.timeOfIncident ≠ "")
    (ht2 : isValidTime r.timeOfIncident = true)
    (hloc : r.location.gpsCoordinates.isSome = true ∨
      strTruthy r.location.manualAddress = true)
    (hname : jsTrim r.reportedBy.name ≠ "")
    (hw1 : jsTrim r.incidentDescription.whatHappened ≠ "")
    (hw2 : 20 ≤ r.incidentDescription.whatHappened.length)
    (hvd : r.vehicleDetails = some vd)
    (hreg : vd.registration = "INVALID")
    (hdrv : jsTrim vd.driverName ≠ "")
    (hcomp : vd.companyVehicle.isSome = true)
    (hpn : vd.policeNotified.isSome = true)
    (hpref : vd.policeNotified = some true → blankOpt vd.policeReferenceNumber = false) :
    (validateIncident env r).errors =
      [⟨"vehicleDetails.registration", "Please enter a valid UK vehicle registration",
        "Vehicle Details"⟩] ∧
    (validateIncident env r).valid = false := by
  have hbasic : validateBasicInfo env r = [] :=
    validateBasicInfo_eq_nil env r (by simp [hcat]) hd1 hd2 ht1 ht2 hloc hw1 hw2 hname
  have hveh : validateVehicleIncident r =
      [⟨"vehicleDetails.registration", "Please enter a valid UK vehicle registration",
        "Vehicle Details"⟩] := by
    have hchain : chainStr r.vehicleDetails VehicleDetails.registration = "INVALID" := by
      rw [hvd]
      exact hreg
    have hb : blankStr (chainStr r.vehicleDetails VehicleDetails.registration) = false := by
      rw [hchain]
      decide
    have huk : isUkReg (chainStr r.vehicleDetails VehicleDetails.registration) = false := by
      rw [hchain]
      decide
    have hd : blankStr (chainStr r.vehicleDetails VehicleDetails.driverName) = false := by
      rw [hvd]
      exact blankStr_eq_false_of_trim hdrv
    have hc : (r.vehicleDetails.bind VehicleDetails.companyVehicle).isNone = false := by
      obtain ⟨b, hb2⟩ := Option.isSome_iff_exists.mp hcomp
      rw [hvd]
      simp [hb2]
    have hpol : (r.vehicleDetails.bind VehicleDetails.policeNotified).isNone = false := by
      obtain ⟨b, hb3⟩ := Option.isSome_iff_exists.mp hpn
      rw [hvd]
      simp [hb3]
    have hrf : ((r.vehicleDetails.bind VehicleDetails.policeNotified) == some true &&
        blankOpt (r.vehicleDetails.bind VehicleDetails.policeReferenceNumber)) = false := by
      obtain ⟨b, hb3⟩ := Option.isSome_iff_exists.mp hpn
      cases b with
      | false => rw [hvd]; simp [hb3]
      | true =>
          have hno := hpref hb3
          rw [hvd]
          simp [hb3, hno]
    simp [validateVehicleIncident, hb, huk, hd, hc, hpol, hrf]
  have d1 : (("vehicle_incident" : String) == "personal_injury") = false := by decide
  have d2 : (("vehicle_incident" : String) == "public_liability") = false := by decide
  have d3 : (("vehicle_incident" : String) == "property_damage") = false := by decide
  have d4 : (("vehicle_incident" : String) == "vehicle_incident") = true := by decide
  have herr : (validateIncident env r).errors =
      [⟨"vehicleDetails.registration", "Please enter a valid UK vehicle registration",
        "Vehicle Details"⟩] := by
    simp [validateIncident, hbasic, hcat, hveh, d1, d2, d3, d4]
  have hv : (validateIncident env r).valid =
      ((validateIncident env r).errors.length == 0) := rfl
  refine ⟨herr, ?_⟩
  rw [hv, herr]
  rfl

/-- Vehicle details for the C7 witness: registration `"INVALID"`, all other
vehicle fields satisfied. -/
def vehicleInvalidReg : VehicleDetails :=
  { vehicleNotified with
      registration := "INVALID"
      policeNotified := some false }

/-- Witness for C7: the concrete record yields exactly the UK-format error. -/
theorem invalidRegistration_single_error_witness :
    (validateIncident sampleEnv
      { vehicleRecord with vehicleDetails := some vehicleInvalidReg }).errors =
      [⟨"vehicleDetails.registration", "Please enter a valid UK vehicle registration",
        "Vehicle Details"⟩] ∧
    (validateIncident sampleEnv
      { vehicleRecord with vehicleDetails := some vehicleInvalidReg }).valid = false :=
  invalidRegistration_single_error sampleEnv
    { vehicleRecord with vehicleDetails := some vehicleInvalidReg } vehicleInvalidReg
    rfl (by decide) (by decide) (by decide) (by decide) (by decide) (by decide)
    (by decide) (by decide) rfl rfl (by decide) (by decide) (by decide)
    (fun h => by simp [vehicleInvalidReg] at h)

/-! C6: the corrective-actions rules of the export validation. -/

lemma mem_pdf_of_mem_invest (env : Env) (r : IncidentReport) (o : PdfExportOptions)
    (hs : o.summaryOnly = false) {e : ValidationError}
    (he : e ∈ validateInvestigationFields r) :
    e ∈ (validateIncidentForPDF env r o).errors := by
  simp [validateIncidentForPDF, hs, List.mem_append]
  tauto

/-- C6: with `summaryOnly = false`, an absent or empty corrective-actions
list always yields a blocking error whose field path is exactly
`correctiveActions`, whatever the rest of the record; and for a non-empty
list, every entry with a blank description or missing responsible person
yields a blocking error whose field path embeds that entry's index. -/
theorem correctiveActions_export_errors (env : Env) (r : IncidentReport)
    (o : PdfExportOptions) (hs : o.summaryOnly = false) :
    ((r.correctiveActions = none ∨ r.correctiveActions = some []) →
      ∃ e ∈ (validateIncidentForPDF env r o).errors, e.field = "correctiveActions") ∧
    (∀ l : List CorrectiveAction, r.correctiveActions = some l →
      ∀ (i : Nat) (a : CorrectiveAction), l[i]? = some a →
      (blankStr a.description = true →
        ∃ e ∈ (validateIncidentForPDF env r o).errors,
          e.field = "correctiveActions[" ++ toString i ++ "].description") ∧
      (blankOpt a.responsiblePerson = true →
        ∃ e ∈ (validateIncidentForPDF env r o).errors,
          e.field = "correctiveActions[" ++ toString i ++ "].responsiblePerson")) := by
  constructor
  · intro h
    refine ⟨⟨"correctiveActions",
      "At least one corrective action is required for investigation report",
      "Corrective Actions"⟩, mem_pdf_of_mem_invest env r o hs ?_, rfl⟩
    rcases h with h | h <;> simp [validateInvestigationFields, h, List.mem_append]
  · intro l hl i a ha
    have henum : (i, a) ∈ l.enum := List.mk_mem_enum_iff_getElem?.mpr ha
    have hmap : correctiveActionErrors i a ∈
        l.enum.map (fun p => correctiveActionErrors p.1 p.2) :=
      List.mem_map_of_mem _ henum
    have hne : l.isEmpty = false := by
      cases l with
      | nil => simp at ha
      | cons x xs => rfl
    have hsub : ∀ e ∈ correctiveActionErrors i a, e ∈ validateInvestigationFields r := by
      intro e he
      have hflat : e ∈ (l.enum.map (fun p => correctiveActionErrors p.1 p.2)).flatten :=
        List.mem_flatten.mpr ⟨_, hmap, he⟩
      simp [validateInvestigationFields, hl, hne, List.mem_append]
      tauto
    constructor
    · intro hblank
      refine ⟨⟨"correctiveActions[" ++ toString i ++ "].description",
        "Corrective action " ++ toString (i + 1) ++ ": Description is required",
        "Corrective Actions"⟩,
        mem_pdf_of_mem_invest env r o hs (hsub _ ?_), rfl⟩
      simp [correctiveActionErrors, hblank, List.mem_append]
    · intro hresp
      refine ⟨⟨"correctiveActions[" ++ toString i ++ "].responsiblePerson",
        "Corrective action " ++ toString (i + 1) ++ ": Responsible person is required",
        "Corrective Actions"⟩,
        mem_pdf_of_mem_invest env r o hs (hsub _ ?_), rfl⟩
      simp [correctiveActionErrors, hresp, List.mem_append]

/-- Export options with `summaryOnly = false` and every other flag off. -/
def fullExportOptions : PdfExportOptions :=
  ⟨false, false, false, false, false, false, false⟩

/-- A record whose single corrective action has a blank description and no
responsible person. -/
def blankActionRecord : IncidentReport :=
  { piRecord with correctiveActions := some [⟨"", none, none, "open"⟩] }

/-- Witness for C6 on concrete records: an absent list errors on
`correctiveActions`; a blank entry errors on the indexed paths. -/
theorem correctiveActions_export_errors_witness :
    (∃ e ∈ (validateIncidentForPDF sampleEnv piRecord fullExportOptions).errors,
      e.field = "correctiveActions") ∧
    (∃ e ∈ (validateIncidentForPDF sampleEnv blankActionRecord fullExportOptions).errors,
      e.field = "correctiveActions[" ++ toString 0 ++ "].description") ∧
    (∃ e ∈ (validateIncidentForPDF sampleEnv blankActionRecord fullExportOptions).errors,
      e.field = "correctiveActions[" ++ toString 0 ++ "].responsiblePerson") := by
  refine ⟨(correctiveActions_export_errors sampleEnv piRecord fullExportOptions rfl).1
    (Or.inl rfl), ?_, ?_⟩
  · exact ((correctiveActions_export_errors sampleEnv blankActionRecord
      fullExportOptions rfl).2 _ rfl 0 _ rfl).1 (by decide)
  · exact ((correctiveActions_export_errors sampleEnv blankActionRecord
      fullExportOptions rfl).2 _ rfl 0 _ rfl).2 (by decide)

end IncidentApp
